import Mathlib

/-!
Verification of the credential and session lifecycle core of the
Learning-Platform repository, shallowly embedded in Lean 4.

Server side the embedding follows `server/src/services/auth.service.ts`
(`AuthService`), `server/src/controllers/auth.controller.ts`
(`AuthController`), `server/src/middleware/auth.middleware.ts`, and the
TypeORM entities `User`, `VerificationToken`, `SocialAccount`.  Client side
it follows `src/services/authService.ts` (the axios interceptors and the
proactive refresh timer).  Times are epoch milliseconds as `Nat`;
JavaScript exceptions become `Except String` carrying the thrown message;
the database is an explicit `ServerState` record threaded through the
operations; sources of randomness (generated token values, generated ids,
random passwords) are explicit parameters.
-/

namespace LearningPlatform

/-- Role of a user, `UserRole` in `entities/User.ts`. -/
inductive UserRole
  | student
  | instructor
  | admin
deriving DecidableEq, Repr

/-- Database string for a role, as stored in the `enum` column. -/
def UserRole.dbString : UserRole → String
  | .student => "student"
  | .instructor => "instructor"
  | .admin => "admin"

/-- Abstraction of `bcrypt.hash` (entity hook `hashPassword`): an injective
function from plaintext to stored hash.  One-wayness is irrelevant to the
claims, only the hash/compare round-trip is used. -/
def bcryptHash (plain : String) : String :=
  "bcrypt$" ++ plain

/-- Abstraction of `bcrypt.compare(candidate, stored)`. -/
def bcryptCompare (candidate stored : String) : Bool :=
  stored == bcryptHash candidate

/-- The `User` entity (`entities/User.ts`).  `password` holds the bcrypt
hash (the column is declared `select: false`, so plain repository loads do
not populate it).  `lastLogin` is an epoch-ms timestamp when set. -/
structure User where
  id : Nat
  username : String
  email : String
  firstName : String
  lastName : String
  password : String
  role : UserRole
  isVerified : Bool
  isActive : Bool
  isLocked : Bool
  lastLogin : Option Nat
deriving DecidableEq, Repr

/-- The entity method `comparePassword`: bcrypt-compare a candidate
against the stored hash. -/
def User.comparePassword (u : User) (candidate : String) : Bool :=
  bcryptCompare candidate u.password

/-- The `VerificationToken` entity (`entities/VerificationToken.ts`).
`expiresAt` and `createdAt` are epoch ms; `token` is the opaque value. -/
structure VerificationToken where
  token : String
  expiresAt : Nat
  isUsed : Bool
  userId : Nat
  createdAt : Nat
deriving DecidableEq, Repr

/-- The `@BeforeInsert generateToken` hook: the random value is the
explicit `value` parameter; expiry is set 24 hours (86400000 ms) from
creation. -/
def VerificationToken.generate (value : String) (userId now : Nat) : VerificationToken :=
  { token := value
    expiresAt := now + 24 * 60 * 60 * 1000
    isUsed := false
    userId := userId
    createdAt := now }

/-- The entity method `isExpired`: `new Date() > this.expiresAt`. -/
def VerificationToken.isExpired (t : VerificationToken) (now : Nat) : Bool :=
  decide (t.expiresAt < now)

/-- The entity method `isValid`: `!this.isUsed && !this.isExpired()`. -/
def VerificationToken.isValid (t : VerificationToken) (now : Nat) : Bool :=
  !t.isUsed && !(t.isExpired now)

/-- Modelled from the spec: the `PasswordReset` entity file is not present
among the sources (it is only imported by `auth.service.ts` and
`entities/User.ts`).  Per the spec a password-reset token mirrors
`VerificationToken` but expires 1 hour after creation, with the same
`isUsed`/`expiresAt` validity rule. -/
structure PasswordReset where
  token : String
  expiresAt : Nat
  isUsed : Bool
  userId : Nat
  createdAt : Nat
deriving DecidableEq, Repr

/-- Modelled from the spec: creation of a password-reset token, expiring
1 hour (3600000 ms) from creation. -/
def PasswordReset.generate (value : String) (userId now : Nat) : PasswordReset :=
  { token := value
    expiresAt := now + 60 * 60 * 1000
    isUsed := false
    userId := userId
    createdAt := now }

/-- Modelled from the spec: `isExpired` for reset tokens, mirroring
`VerificationToken.isExpired`. -/
def PasswordReset.isExpired (t : PasswordReset) (now : Nat) : Bool :=
  decide (t.expiresAt < now)

/-- Modelled from the spec: `isValid` for reset tokens, mirroring
`VerificationToken.isValid`. -/
def PasswordReset.isValid (t : PasswordReset) (now : Nat) : Bool :=
  !t.isUsed && !(t.isExpired now)

/-- A JSON Web Token as the server signs and verifies it (`jsonwebtoken`):
the payload claims, the signing secret and the expiry instant.
`malformed` covers strings that are not structurally a JWT signed by any
known secret. -/
inductive Jwt
  | access (id : Nat) (email : String) (role : UserRole) (secret : String) (exp : Nat)
  | refresh (id : Nat) (secret : String) (exp : Nat)
  | malformed (raw : String)
deriving DecidableEq, Repr

/-- Failure modes of `jwt.verify`: `JsonWebTokenError` for a malformed
token or bad signature, `TokenExpiredError` past expiry. -/
inductive JwtError
  | jsonWebTokenError
  | tokenExpiredError
deriving DecidableEq, Repr

/-- The verified payload of an access token: `{ id, email, role }`. -/
structure AccessPayload where
  id : Nat
  email : String
  role : UserRole
deriving DecidableEq, Repr

/-- The behaviour of `jwt.verify(token, secret)` on a token expected to be
a refresh token: signature and structure are checked first, then expiry;
on success the decoded payload exposes the embedded user id. -/
def jwtVerifyRefresh (tok : Jwt) (secret : String) (now : Nat) : Except JwtError Nat :=
  match tok with
  | .refresh id s exp =>
    if s ≠ secret then .error .jsonWebTokenError
    else if exp ≤ now then .error .tokenExpiredError
    else .ok id
  | _ => .error .jsonWebTokenError

/-- The behaviour of `jwt.verify(token, secret)` on a token expected to be
an access token. -/
def jwtVerifyAccess (tok : Jwt) (secret : String) (now : Nat) : Except JwtError AccessPayload :=
  match tok with
  | .access id email role s exp =>
    if s ≠ secret then .error .jsonWebTokenError
    else if exp ≤ now then .error .tokenExpiredError
    else .ok { id := id, email := email, role := role }
  | _ => .error .jsonWebTokenError

/-- Server environment: policy flag and JWT configuration
(`process.env.REQUIRE_EMAIL_VERIFICATION`, `JWT_SECRET`,
`JWT_REFRESH_SECRET`, the access/refresh lifetimes `JWT_EXPIRES_IN` /
`JWT_REFRESH_EXPIRES_IN` in ms, and `JWT_EXPIRES_IN_SECONDS`, reported
defaults 1h / 7d / 3600). -/
structure Env where
  requireEmailVerification : Bool
  jwtSecret : String
  jwtRefreshSecret : String
  accessLifetimeMs : Nat
  refreshLifetimeMs : Nat
  jwtExpiresInSeconds : Nat
deriving DecidableEq, Repr

/-- The `AuthTokens` interface of `auth.service.ts`. -/
structure AuthTokens where
  accessToken : Jwt
  refreshToken : Jwt
  expiresIn : Nat
deriving DecidableEq, Repr

/-- Embeds `AuthService.generateTokens`: sign an access token with claims
`{ id, email, role }` under `JWT_SECRET` and a refresh token with claim
`{ id }` under `JWT_REFRESH_SECRET`. -/
def generateTokens (env : Env) (u : User) (now : Nat) : AuthTokens :=
  { accessToken := .access u.id u.email u.role env.jwtSecret (now + env.accessLifetimeMs)
    refreshToken := .refresh u.id env.jwtRefreshSecret (now + env.refreshLifetimeMs)
    expiresIn := env.jwtExpiresInSeconds }

/-- The `SocialProfile` fields the service reads from the provider
profile blob.  Absent properties are `none`. -/
structure SocialProfile where
  id : String
  email : String
  firstName : Option String
  lastName : Option String
  given_name : Option String
  family_name : Option String
  name : Option String
deriving DecidableEq, Repr

/-- The `SocialAccount` entity (`entities/SocialAccount.ts`), keyed by the
unique `(provider, providerId)` pair; `provider` is its enum string. -/
structure SocialAccount where
  provider : String
  providerId : String
  userId : Nat
  accessToken : String
  profile : SocialProfile
deriving DecidableEq, Repr

/-- The persistent store: the rows of the four tables the auth core
touches. -/
structure ServerState where
  users : List User
  verificationTokens : List VerificationToken
  passwordResets : List PasswordReset
  socialAccounts : List SocialAccount
deriving DecidableEq, Repr

/-- Embeds `userRepository.findOne({ email })`. -/
def findUserByEmail (st : ServerState) (email : String) : Option User :=
  st.users.find? (fun u => u.email == email)

/-- Embeds `userRepository.findOne({ username })`. -/
def findUserByUsername (st : ServerState) (username : String) : Option User :=
  st.users.find? (fun u => u.username == username)

/-- Embeds `userRepository.findOne(id)`. -/
def findUserById (st : ServerState) (id : Nat) : Option User :=
  st.users.find? (fun u => u.id == id)

/-- Embeds `userRepository.save` on an existing entity: update the row with the
same primary key. -/
def saveUser (st : ServerState) (u : User) : ServerState :=
  { st with users := st.users.map (fun v => if v.id == u.id then u else v) }

/-- Embeds `tokenRepository.save` on an existing verification token: update the
row with the same token value (the indexed unique lookup key). -/
def saveVerificationToken (st : ServerState) (t : VerificationToken) : ServerState :=
  { st with verificationTokens :=
      st.verificationTokens.map (fun v => if v.token == t.token then t else v) }

/-- Embeds `resetRepository.save` on an existing password-reset token. -/
def savePasswordReset (st : ServerState) (t : PasswordReset) : ServerState :=
  { st with passwordResets :=
      st.passwordResets.map (fun v => if v.token == t.token then t else v) }

/-- Embeds `RegisterUserDto`. -/
structure RegisterUserDto where
  username : String
  email : String
  password : String
  firstName : String
  lastName : String
deriving DecidableEq, Repr

/-- Embeds `LoginUserDto`. -/
structure LoginUserDto where
  email : String
  password : String
deriving DecidableEq, Repr

/-- Embeds `ResetPasswordDto`. -/
structure ResetPasswordDto where
  token : String
  password : String
  confirmPassword : String
deriving DecidableEq, Repr

/-- Embeds `SocialAuthDto`: provider, provider-issued access token, and the
already-extracted profile (absent profile is `none`). -/
structure SocialAuthDto where
  provider : String
  token : String
  profile : Option SocialProfile
deriving DecidableEq, Repr

/-- Serialization of a fully-loaded `User` entity to its JSON fields, in
column order, password included — what `res.json` would emit for an
entity whose `password` property is populated. -/
def User.jsonFields (u : User) : List (String × String) :=
  [("id", toString u.id),
   ("username", u.username),
   ("email", u.email),
   ("firstName", u.firstName),
   ("lastName", u.lastName),
   ("password", u.password),
   ("role", u.role.dbString),
   ("isVerified", toString u.isVerified),
   ("isActive", toString u.isActive),
   ("isLocked", toString u.isLocked),
   ("lastLogin", toString (u.lastLogin.getD 0))]

/-- The entity method `toResponseObject`:
`const { password, ...userWithoutPassword } = this` — every property
except `password`. -/
def User.toResponseObject (u : User) : List (String × String) :=
  u.jsonFields.filter (fun kv => kv.1 ≠ "password")

namespace AuthService

/-- Embeds `AuthService.register`: duplicate email then duplicate username are
rejected before any write; the user is created with `isVerified=false`
(columns default `isActive=true`, `isLocked=false`, role `student`), the
password hashed by the entity hook; a verification token is created; a
token pair is issued.  `freshUserId` is the generated primary key and
`freshTokenValue` the random token value. -/
def register (env : Env) (st : ServerState) (now : Nat) (dto : RegisterUserDto)
    (freshUserId : Nat) (freshTokenValue : String) :
    Except String (User × AuthTokens) × ServerState :=
  if (findUserByEmail st dto.email).isSome then
    (.error "Email already exists", st)
  else if (findUserByUsername st dto.username).isSome then
    (.error "Username already exists", st)
  else
    let user : User :=
      { id := freshUserId
        username := dto.username
        email := dto.email
        firstName := dto.firstName
        lastName := dto.lastName
        password := bcryptHash dto.password
        role := .student
        isVerified := false
        isActive := true
        isLocked := false
        lastLogin := none }
    let st := { st with users := st.users ++ [user] }
    let vt := VerificationToken.generate freshTokenValue user.id now
    let st := { st with verificationTokens := st.verificationTokens ++ [vt] }
    (.ok (user, generateTokens env user now), st)

/-- Embeds `AuthService.login`, in source order: lookup by email (password column
explicitly selected), locked, inactive, verification policy, password
compare, then `lastLogin` update and token issue; the success value is
`user.toResponseObject()` plus the fresh pair. -/
def login (env : Env) (st : ServerState) (now : Nat) (dto : LoginUserDto) :
    Except String (List (String × String) × AuthTokens) × ServerState :=
  match findUserByEmail st dto.email with
  | none => (.error "Invalid credentials", st)
  | some user =>
    if user.isLocked then
      (.error "Your account has been locked. Please contact support.", st)
    else if !user.isActive then
      (.error "Your account is inactive. Please contact support.", st)
    else if env.requireEmailVerification && !user.isVerified then
      (.error "Please verify your email before logging in", st)
    else if !(user.comparePassword dto.password) then
      (.error "Invalid credentials", st)
    else
      let user := { user with lastLogin := some now }
      let st := saveUser st user
      (.ok (user.toResponseObject, generateTokens env user now), st)

/-- Embeds `AuthService.verifyEmail`: find the token row (with its user
relation); reject if absent or not `isValid()`; then set
`isVerified=true` on the user and mark the token used.  A dangling user
relation would make the `user.isVerified` assignment throw a `TypeError`
in the source; that is carried as an error before any write. -/
def verifyEmail (st : ServerState) (now : Nat) (token : String) :
    Except String String × ServerState :=
  match st.verificationTokens.find? (fun t => t.token == token) with
  | none => (.error "Invalid verification token", st)
  | some vt =>
    if !(vt.isValid now) then
      (.error "Verification token has expired", st)
    else
      match findUserById st vt.userId with
      | none => (.error "TypeError", st)
      | some user =>
        let st := saveUser st { user with isVerified := true }
        let st := saveVerificationToken st { vt with isUsed := true }
        (.ok "Email verified successfully", st)

/-- Embeds `AuthService.resendVerificationEmail`: throws `User not found` for an
unknown email and `Email is already verified` for a verified account;
otherwise persists a fresh verification token and reports success. -/
def resendVerificationEmail (st : ServerState) (now : Nat) (email : String)
    (freshTokenValue : String) : Except String String × ServerState :=
  match findUserByEmail st email with
  | none => (.error "User not found", st)
  | some user =>
    if user.isVerified then
      (.error "Email is already verified", st)
    else
      let vt := VerificationToken.generate freshTokenValue user.id now
      (.ok "Verification email sent",
        { st with verificationTokens := st.verificationTokens ++ [vt] })

/-- Embeds `AuthService.forgotPassword`: an unknown email returns the generic
message without any write; an existing one persists a reset token and
returns a different message. -/
def forgotPassword (st : ServerState) (now : Nat) (email : String)
    (freshTokenValue : String) : Except String String × ServerState :=
  match findUserByEmail st email with
  | none =>
    (.ok "If your email exists, you will receive a password reset link", st)
  | some user =>
    let pr := PasswordReset.generate freshTokenValue user.id now
    (.ok "Password reset instructions sent to your email",
      { st with passwordResets := st.passwordResets ++ [pr] })

/-- Embeds `AuthService.resetPassword`, in source order: password/confirm
mismatch, token lookup, `isValid()` check (one error for expired or
already used), then the password is replaced (hashed by the update hook)
and the token marked used. -/
def resetPassword (st : ServerState) (now : Nat) (dto : ResetPasswordDto) :
    Except String String × ServerState :=
  if dto.password ≠ dto.confirmPassword then
    (.error "Passwords do not match", st)
  else
    match st.passwordResets.find? (fun t => t.token == dto.token) with
    | none => (.error "Invalid password reset token", st)
    | some pr =>
      if !(pr.isValid now) then
        (.error "Password reset token has expired", st)
      else
        match findUserById st pr.userId with
        | none => (.error "TypeError", st)
        | some user =>
          let st := saveUser st { user with password := bcryptHash dto.password }
          let st := savePasswordReset st { pr with isUsed := true }
          (.ok "Password reset successful", st)

/-- The body of the `try` block of `AuthService.refreshTokens`: verify
the token against `JWT_REFRESH_SECRET`, load the user by the decoded id
(throwing `User not found` when absent), and issue a fresh pair. -/
def refreshTokensTry (env : Env) (st : ServerState) (now : Nat) (tok : Jwt) :
    Except String AuthTokens :=
  match jwtVerifyRefresh tok env.jwtRefreshSecret now with
  | .error .jsonWebTokenError => .error "JsonWebTokenError"
  | .error .tokenExpiredError => .error "TokenExpiredError"
  | .ok id =>
    match findUserById st id with
    | none => .error "User not found"
    | some user => .ok (generateTokens env user now)

/-- Embeds `AuthService.refreshTokens`: the whole body is wrapped in
`try { ... } catch { throw new Error('Invalid refresh token') }`, so every
failure — malformed token, expired token, missing user — surfaces as the
same error. -/
def refreshTokens (env : Env) (st : ServerState) (now : Nat) (tok : Jwt) :
    Except String AuthTokens :=
  match refreshTokensTry env st now tok with
  | .error _ => .error "Invalid refresh token"
  | .ok tokens => .ok tokens

end AuthService

/-- JavaScript `a || b` over an optional string property: both an absent
property and an empty string are falsy and fall through to `b`. -/
def jsOr (a : Option String) (b : String) : String :=
  match a with
  | some s => if s = "" then b else s
  | none => b

/-- Embeds `profile.name?.split(' ')[0]` — the first word of the display name
when present. -/
def profileNameFirstWord (name : Option String) : Option String :=
  name.map (fun s => (s.splitOn " ").headD "")

/-- Embeds `profile.name?.split(' ').slice(1).join(' ')` — the remaining words of
the display name when present. -/
def profileNameRest (name : Option String) : Option String :=
  name.map (fun s => String.intercalate " " ((s.splitOn " ").drop 1))

namespace AuthService

/-- Embeds `AuthService.socialAuth`: rejects an absent profile; looks the link up
by `(provider, providerId)`.  When the link exists, the linked user is
taken (a dangling relation would throw a `TypeError`), only `lastLogin`
is saved, and `isNewUser` stays false — the stored link row is not
touched.  When no link exists, the user is found by email or freshly
created (verified, random password hashed on save), and a link row
carrying the supplied access token and profile is inserted.
`freshUserId`, `randSuffix` and `randPassword` stand for the generated
id, `Math.floor(Math.random()*1000)` username suffix and the random
password. -/
def socialAuth (env : Env) (st : ServerState) (now : Nat) (dto : SocialAuthDto)
    (freshUserId randSuffix : Nat) (randPassword : String) :
    Except String (List (String × String) × AuthTokens × Bool) × ServerState :=
  match dto.profile with
  | none => (.error "Invalid social profile data", st)
  | some profile =>
    let providerId := profile.id
    let email := profile.email
    match st.socialAccounts.find?
        (fun a => a.provider == dto.provider && a.providerId == providerId) with
    | some account =>
      match findUserById st account.userId with
      | none => (.error "TypeError", st)
      | some user =>
        let user := { user with lastLogin := some now }
        let st := saveUser st user
        (.ok (user.toResponseObject, generateTokens env user now, false), st)
    | none =>
      let found := findUserByEmail st email
      let user : User :=
        match found with
        | some u => u
        | none =>
          { id := freshUserId
            username := (email.splitOn "@").headD "" ++ toString randSuffix
            email := email
            firstName := jsOr profile.firstName (jsOr profile.given_name
              (jsOr (profileNameFirstWord profile.name) "User"))
            lastName := jsOr profile.lastName (jsOr profile.family_name
              (jsOr (profileNameRest profile.name) (toString now)))
            password := bcryptHash randPassword
            role := .student
            isVerified := true
            isActive := true
            isLocked := false
            lastLogin := none }
      let isNewUser := found.isNone
      let st :=
        if isNewUser then { st with users := st.users ++ [user] }
        else saveUser st user
      let account : SocialAccount :=
        { provider := dto.provider
          providerId := providerId
          userId := user.id
          accessToken := dto.token
          profile := profile }
      let st := { st with socialAccounts := st.socialAccounts ++ [account] }
      let user := { user with lastLogin := some now }
      let st := saveUser st user
      (.ok (user.toResponseObject, generateTokens env user now, isNewUser), st)

end AuthService

/-- Response bodies the auth controller emits (`res.json` arguments),
by shape. -/
inductive Body
  | message (text : String)
  | userTokens (text : String) (user : List (String × String)) (tokens : AuthTokens)
  | social (text : String) (user : List (String × String)) (tokens : AuthTokens)
      (isNewUser : Bool)
  | userOnly (user : List (String × String))
  | tokenPair (tokens : AuthTokens)
  | validationErrors (field : String)
deriving DecidableEq, Repr

/-- The serialized user object carried by a response body, `[]` when the
body has none. -/
def Body.userFields : Body → List (String × String)
  | .userTokens _ user _ => user
  | .social _ user _ _ => user
  | .userOnly user => user
  | _ => []

/-- An HTTP response: status code and JSON body. -/
structure HttpResponse where
  status : Nat
  body : Body
deriving DecidableEq, Repr

namespace AuthController

/-- Embeds `AuthController.register` (POST /api/auth/register): on success 201
with `user.toResponseObject()` and the tokens; a thrown service error
becomes 400 with its message.  Inputs are assumed to satisfy the
field-shape validators. -/
def register (env : Env) (st : ServerState) (now : Nat) (dto : RegisterUserDto)
    (freshUserId : Nat) (freshTokenValue : String) : HttpResponse × ServerState :=
  match AuthService.register env st now dto freshUserId freshTokenValue with
  | (.ok (user, tokens), st) =>
    (⟨201, .userTokens "User registered successfully" user.toResponseObject tokens⟩, st)
  | (.error e, st) => (⟨400, .message e⟩, st)

/-- Embeds `AuthController.login` (POST /api/auth/login): on success 200; every
thrown service error is collapsed to 401 `Invalid credentials`
("Don't reveal too much information"). -/
def login (env : Env) (st : ServerState) (now : Nat) (dto : LoginUserDto) :
    HttpResponse × ServerState :=
  match AuthService.login env st now dto with
  | (.ok (user, tokens), st) =>
    (⟨200, .userTokens "Login successful" user tokens⟩, st)
  | (.error _, st) => (⟨401, .message "Invalid credentials"⟩, st)

/-- Embeds `AuthController.verifyEmail` (POST /api/auth/verify-email): 200 on
success, 400 with the thrown message otherwise. -/
def verifyEmail (st : ServerState) (now : Nat) (token : String) :
    HttpResponse × ServerState :=
  match AuthService.verifyEmail st now token with
  | (.ok m, st) => (⟨200, .message m⟩, st)
  | (.error e, st) => (⟨400, .message e⟩, st)

/-- Embeds `AuthController.resendVerification` (POST /api/auth/resend-verification):
200 on success, 400 with the thrown message otherwise. -/
def resendVerification (st : ServerState) (now : Nat) (email : String)
    (freshTokenValue : String) : HttpResponse × ServerState :=
  match AuthService.resendVerificationEmail st now email freshTokenValue with
  | (.ok m, st) => (⟨200, .message m⟩, st)
  | (.error e, st) => (⟨400, .message e⟩, st)

/-- Embeds `AuthController.forgotPassword` (POST /api/auth/forgot-password): 200
with the service message on success; even a thrown error becomes 200 with
the generic message. -/
def forgotPassword (st : ServerState) (now : Nat) (email : String)
    (freshTokenValue : String) : HttpResponse × ServerState :=
  match AuthService.forgotPassword st now email freshTokenValue with
  | (.ok m, st) => (⟨200, .message m⟩, st)
  | (.error _, st) =>
    (⟨200, .message "If your email exists, you will receive a password reset link"⟩, st)

/-- Embeds `AuthController.resetPassword` (POST /api/auth/reset-password): the
validator `body('confirmPassword').equals(req.body.password)` rejects a
mismatched pair with a 400 errors array before the service runs; otherwise
200 on success and 400 with the thrown message on failure. -/
def resetPassword (st : ServerState) (now : Nat) (dto : ResetPasswordDto) :
    HttpResponse × ServerState :=
  if dto.confirmPassword ≠ dto.password then
    (⟨400, .validationErrors "confirmPassword"⟩, st)
  else
    match AuthService.resetPassword st now dto with
    | (.ok m, st) => (⟨200, .message m⟩, st)
    | (.error e, st) => (⟨400, .message e⟩, st)

/-- Embeds `AuthController.refreshToken` (POST /api/auth/refresh-token): 200 with
the bare token pair, or 401 `Invalid refresh token`. -/
def refreshToken (env : Env) (st : ServerState) (now : Nat) (tok : Jwt) :
    HttpResponse :=
  match AuthService.refreshTokens env st now tok with
  | .ok tokens => ⟨200, .tokenPair tokens⟩
  | .error _ => ⟨401, .message "Invalid refresh token"⟩

/-- Embeds `AuthController.socialAuth` (POST /api/auth/social/:provider): 200
with user, tokens and `isNewUser`; a thrown error becomes 401 with its
message. -/
def socialAuth (env : Env) (st : ServerState) (now : Nat) (dto : SocialAuthDto)
    (freshUserId randSuffix : Nat) (randPassword : String) :
    HttpResponse × ServerState :=
  match AuthService.socialAuth env st now dto freshUserId randSuffix randPassword with
  | (.ok (user, tokens, isNewUser), st) =>
    (⟨200, .social "Social authentication successful" user tokens isNewUser⟩, st)
  | (.error e, st) => (⟨401, .message e⟩, st)

end AuthController

/-- Outcome of the `authenticate` middleware: either the loaded user is
attached to the request, or a response is sent. -/
inductive AuthOutcome
  | ok (user : User)
  | fail (status : Nat) (message : String)
deriving DecidableEq, Repr

/-- The `authenticate` middleware (`auth.middleware.ts`).  The
`Authorization` header is modelled post-parsing: `none` is a missing
header; a present bearer token that is not a JWT signed with any known
secret is `Jwt.malformed` (the source's separate 401
`Invalid authorization format` branch is likewise a 401 and is subsumed
here by the `Invalid token` branch).  Order as in source: verify against
`JWT_SECRET` (expired → 401, invalid → 401), load the user (missing →
401), then `!isActive` → 403 and `isLocked` → 403. -/
def authenticate (env : Env) (st : ServerState) (now : Nat)
    (authHeader : Option Jwt) : AuthOutcome :=
  match authHeader with
  | none => .fail 401 "Authorization header missing"
  | some tok =>
    match jwtVerifyAccess tok env.jwtSecret now with
    | .error .tokenExpiredError => .fail 401 "Token expired"
    | .error .jsonWebTokenError => .fail 401 "Invalid token"
    | .ok payload =>
      match findUserById st payload.id with
      | none => .fail 401 "User not found"
      | some user =>
        if !user.isActive then .fail 403 "Account is inactive"
        else if user.isLocked then .fail 403 "Account is locked"
        else .ok user

/-- Serialization of a user loaded by a plain repository `findOne`: the
`password` column is `select: false`, so the property is absent on the
loaded entity and `res.json` omits it. -/
def User.loadedJsonFields (u : User) : List (String × String) :=
  u.jsonFields.filter (fun kv => kv.1 ≠ "password")

/-- GET /api/auth/me: `authenticate` then `AuthController.getCurrentUser`,
which sends the attached user as loaded (no password column selected). -/
def getCurrentUserEndpoint (env : Env) (st : ServerState) (now : Nat)
    (authHeader : Option Jwt) : HttpResponse :=
  match authenticate env st now authHeader with
  | .ok user => ⟨200, .userOnly user.loadedJsonFields⟩
  | .fail s m => ⟨s, .message m⟩

/-- Client-side request config (`src/services/authService.ts`): the
`_retry` flag the response interceptor stamps on a config before
replaying it; a fresh request has it unset. -/
structure ClientRequest where
  retry : Bool
deriving DecidableEq, Repr

/-- What one invocation of the client response interceptor does with a
request that failed with HTTP 401. -/
inductive InterceptorAction
  | refreshAndRetry
  | clearSession
  | reject
deriving DecidableEq, Repr

/-- The 401 branch of the response interceptor in the `AuthService`
constructor: if the request has not been retried and a refresh token is
stored, set `_retry`, invoke `this.refreshTokens(refreshToken)` and
replay the request with the token that call returns; with no refresh
token, clear the session; an already-retried request falls through to
rejection.  The decision reads only the request's own `_retry` flag and
the stored refresh token — the class keeps no shared in-flight refresh
promise or refreshing flag, so concurrent invocations decide
independently. -/
def interceptOn401 (hasRefreshToken : Bool) (r : ClientRequest) : InterceptorAction :=
  if !r.retry then
    if hasRefreshToken then .refreshAndRetry else .clearSession
  else .reject

/-- A trigger of the client refresh path: a request completing with 401,
or the proactive timer scheduled by `setupTokenRefresh` firing. -/
inductive RefreshTrigger
  | response401 (r : ClientRequest)
  | proactiveTimer
deriving DecidableEq, Repr

/-- Whether a single trigger invokes `this.refreshTokens` — one HTTP call
to the refresh endpoint: the 401 interceptor calls it exactly when it
decides `refreshAndRetry`; the timer callback calls it whenever a refresh
token is stored. -/
def triggerCallsRefresh (hasRefreshToken : Bool) : RefreshTrigger → Bool
  | .response401 r => decide (interceptOn401 hasRefreshToken r = .refreshAndRetry)
  | .proactiveTimer => hasRefreshToken

/-- Number of calls to the refresh endpoint issued by a batch of
concurrent triggers.  Because each trigger's decision is independent of
every other in-flight trigger (no shared promise, no refreshing state),
the calls of a batch are simply the calls of its members. -/
def refreshCallCount (hasRefreshToken : Bool) (ts : List RefreshTrigger) : Nat :=
  (ts.filter (triggerCallsRefresh hasRefreshToken)).length

/-! Concrete fixtures used by witnesses and counterexamples. -/

/-- A server environment with verification required and distinct secrets. -/
def sampleEnv : Env :=
  { requireEmailVerification := true
    jwtSecret := "access-secret"
    jwtRefreshSecret := "refresh-secret"
    accessLifetimeMs := 3600000
    refreshLifetimeMs := 604800000
    jwtExpiresInSeconds := 3600 }

/-- A registered but unverified, active, unlocked user. -/
def alice : User :=
  { id := 1
    username := "alice"
    email := "alice@x.com"
    firstName := "Alice"
    lastName := "Smith"
    password := bcryptHash "Abc12345!"
    role := .student
    isVerified := false
    isActive := true
    isLocked := false
    lastLogin := none }

/-- A verified, active, unlocked user. -/
def dave : User :=
  { id := 4
    username := "dave"
    email := "dave@x.com"
    firstName := "Dave"
    lastName := "Jones"
    password := bcryptHash "Dvd12345!"
    role := .student
    isVerified := true
    isActive := true
    isLocked := false
    lastLogin := none }

/-- A verified but locked user. -/
def luke : User :=
  { id := 6
    username := "luke"
    email := "luke@x.com"
    firstName := "Luke"
    lastName := "Lock"
    password := bcryptHash "Lkk12345!"
    role := .student
    isVerified := true
    isActive := true
    isLocked := true
    lastLogin := none }

/-- A user owning a linked social account. -/
def eve : User :=
  { id := 5
    username := "eve"
    email := "eve@x.com"
    firstName := "Eve"
    lastName := "Ng"
    password := bcryptHash "Evv12345!"
    role := .student
    isVerified := true
    isActive := true
    isLocked := false
    lastLogin := none }

/-- The provider profile cached on Eve's stored link. -/
def oldProfile : SocialProfile :=
  { id := "g-1"
    email := "eve@x.com"
    firstName := some "Eve"
    lastName := some "Ng"
    given_name := none
    family_name := none
    name := none }

/-- The provider profile supplied on a later social login. -/
def newProfile : SocialProfile :=
  { id := "g-1"
    email := "eve@x.com"
    firstName := some "Evelyn"
    lastName := some "Ng"
    given_name := none
    family_name := none
    name := none }

/-- Eve's stored social link, cached token `old-token`. -/
def eveLink : SocialAccount :=
  { provider := "google"
    providerId := "g-1"
    userId := 5
    accessToken := "old-token"
    profile := oldProfile }

/-- A store with no rows. -/
def emptyState : ServerState :=
  { users := [], verificationTokens := [], passwordResets := [], socialAccounts := [] }

/-- A store holding the fixture users, Eve's link, and one fresh
password-reset token for Dave issued at t=1000. -/
def sampleState : ServerState :=
  { users := [alice, dave, luke, eve]
    verificationTokens := []
    passwordResets := [PasswordReset.generate "reset-token-value-1" 4 1000]
    socialAccounts := [eveLink] }

/-- Projection of a socialAuth service result onto its `isNewUser`
flag. -/
def socialAuthIsNewUser :
    Except String (List (String × String) × AuthTokens × Bool) → Option Bool
  | .ok (_, _, b) => some b
  | .error _ => none

/-- A reset request matching the reset token stored in `sampleState`. -/
def resetDto : ResetPasswordDto :=
  { token := "reset-token-value-1"
    password := "NewPass1!"
    confirmPassword := "NewPass1!" }

/-! Theorems.  Each claim from the specification is settled below; shared
helper lemmas come first. -/

theorem not_decide_lt (a b : Nat) : (!decide (a < b)) = decide (b ≤ a) := by
  by_cases h : a < b
  · simp [h, Nat.not_le.mpr h]
  · simp [h, Nat.le_of_not_lt h]

/-- C7: a single-use token is valid iff `!isUsed && now ≤ expiresAt`; a
verification token created at `T` is valid at `T+24h−1ms` and invalid at
`T+24h+1ms`; a reset token has the analogous boundary at `T+1h`; and once
`isUsed` is set a token is invalid at every time. -/
theorem singleUseToken_validity_iff_and_boundaries :
    (∀ (t : VerificationToken) (now : Nat),
        t.isValid now = (!t.isUsed && decide (now ≤ t.expiresAt)))
    ∧ (∀ (v : String) (uid T : Nat),
        (VerificationToken.generate v uid T).isValid (T + 86400000 - 1) = true
        ∧ (VerificationToken.generate v uid T).isValid (T + 86400000 + 1) = false)
    ∧ (∀ (t : VerificationToken) (now : Nat),
        ({ t with isUsed := true } : VerificationToken).isValid now = false)
    ∧ (∀ (t : PasswordReset) (now : Nat),
        t.isValid now = (!t.isUsed && decide (now ≤ t.expiresAt)))
    ∧ (∀ (v : String) (uid T : Nat),
        (PasswordReset.generate v uid T).isValid (T + 3600000 - 1) = true
        ∧ (PasswordReset.generate v uid T).isValid (T + 3600000 + 1) = false)
    ∧ (∀ (t : PasswordReset) (now : Nat),
        ({ t with isUsed := true } : PasswordReset).isValid now = false) := by
  refine ⟨?_, ?_, ?_, ?_, ?_, ?_⟩
  · intro t now
    rw [VerificationToken.isValid, VerificationToken.isExpired, not_decide_lt]
  · intro v uid T
    constructor
    · simp [VerificationToken.generate, VerificationToken.isValid,
        VerificationToken.isExpired]
    · simp [VerificationToken.generate, VerificationToken.isValid,
        VerificationToken.isExpired]
  · intro t now
    simp [VerificationToken.isValid]
  · intro t now
    rw [PasswordReset.isValid, PasswordReset.isExpired, not_decide_lt]
  · intro v uid T
    constructor
    · simp [PasswordReset.generate, PasswordReset.isValid, PasswordReset.isExpired]
    · simp [PasswordReset.generate, PasswordReset.isValid, PasswordReset.isExpired]
  · intro t now
    simp [PasswordReset.isValid]

/-- C10: if `verifyEmail` or `resetPassword` fails for any reason, the
store is exactly as it was before the call — in particular the owning
user's password hash and `isVerified` flag and the token's `isUsed` flag
are unchanged. -/
theorem verifyEmail_resetPassword_failure_preserves_state :
    (∀ (st : ServerState) (now : Nat) (token e : String),
        (AuthService.verifyEmail st now token).1 = .error e →
        (AuthService.verifyEmail st now token).2 = st)
    ∧ (∀ (st : ServerState) (now : Nat) (dto : ResetPasswordDto) (e : String),
        (AuthService.resetPassword st now dto).1 = .error e →
        (AuthService.resetPassword st now dto).2 = st) := by
  constructor
  · intro st now token e h
    unfold AuthService.verifyEmail at h ⊢
    cases hfind : st.verificationTokens.find? (fun t => t.token == token) with
    | none => simp [hfind]
    | some vt =>
      simp only [hfind] at h ⊢
      by_cases hv : vt.isValid now
      · simp only [hv] at h ⊢
        cases huser : findUserById st vt.userId with
        | none => simp [huser]
        | some user => simp [huser] at h
      · simp [hv]
  · intro st now dto e h
    unfold AuthService.resetPassword at h ⊢
    by_cases hpw : dto.password = dto.confirmPassword
    · simp only [hpw] at h ⊢
      cases hfind : st.passwordResets.find? (fun t => t.token == dto.token) with
      | none => simp [hfind]
      | some pr =>
        simp only [hfind] at h ⊢
        by_cases hv : pr.isValid now
        · simp only [hv] at h ⊢
          cases huser : findUserById st pr.userId with
          | none => simp [huser]
          | some user => simp [huser] at h
        · simp [hv]
    · simp [hpw]

theorem verifyEmail_resetPassword_failure_preserves_state_witness :
    (AuthService.verifyEmail emptyState 0 "no-such-token").1
      = .error "Invalid verification token"
    ∧ (AuthService.verifyEmail emptyState 0 "no-such-token").2 = emptyState := by
  constructor
  · rfl
  · exact verifyEmail_resetPassword_failure_preserves_state.1 emptyState 0
      "no-such-token" "Invalid verification token" rfl

theorem filter_drops_password_key (l : List (String × String)) :
    "password" ∉ (l.filter (fun kv => kv.1 ≠ "password")).map Prod.fst := by
  intro h
  rcases List.mem_map.mp h with ⟨kv, hmem, hfst⟩
  rcases List.mem_filter.mp hmem with ⟨-, hne⟩
  simp only [decide_eq_true_eq] at hne
  exact hne hfst

theorem toResponseObject_no_password (u : User) :
    "password" ∉ (User.toResponseObject u).map Prod.fst :=
  filter_drops_password_key u.jsonFields

theorem loadedJsonFields_no_password (u : User) :
    "password" ∉ (User.loadedJsonFields u).map Prod.fst :=
  filter_drops_password_key u.jsonFields

theorem login_ok_user_shape (env : Env) (st : ServerState) (now : Nat)
    (dto : LoginUserDto) (u : List (String × String)) (tks : AuthTokens)
    (st2 : ServerState)
    (h : AuthService.login env st now dto = (.ok (u, tks), st2)) :
    ∃ w : User, u = User.toResponseObject w := by
  unfold AuthService.login at h
  split at h
  · simp at h
  · split at h
    · simp at h
    · split at h
      · simp at h
      · split at h
        · simp at h
        · split at h
          · simp at h
          · simp only [Prod.mk.injEq, Except.ok.injEq] at h
            exact ⟨_, h.1.1.symm⟩

theorem socialAuth_ok_user_shape (env : Env) (st : ServerState) (now : Nat)
    (dto : SocialAuthDto) (fid rs : Nat) (rp : String)
    (u : List (String × String)) (tks : AuthTokens) (isNew : Bool)
    (st2 : ServerState)
    (h : AuthService.socialAuth env st now dto fid rs rp = (.ok (u, tks, isNew), st2)) :
    ∃ w : User, u = User.toResponseObject w := by
  unfold AuthService.socialAuth at h
  split at h
  · simp at h
  · dsimp only at h
    split at h
    · split at h
      · simp at h
      · simp only [Prod.mk.injEq, Except.ok.injEq] at h
        exact ⟨_, h.1.1.symm⟩
    · simp only [Prod.mk.injEq, Except.ok.injEq] at h
      exact ⟨_, h.1.1.symm⟩

/-- C8: no operation that returns a user object — register, login,
socialAuth, GET /auth/me — serializes a `password` field: the user part
of every response body omits the password hash. -/
theorem password_hash_never_serialized :
    (∀ (env : Env) (st : ServerState) (now : Nat) (dto : RegisterUserDto)
        (fid : Nat) (ftv : String),
        "password" ∉
          ((AuthController.register env st now dto fid ftv).1.body.userFields).map Prod.fst)
    ∧ (∀ (env : Env) (st : ServerState) (now : Nat) (dto : LoginUserDto),
        "password" ∉
          ((AuthController.login env st now dto).1.body.userFields).map Prod.fst)
    ∧ (∀ (env : Env) (st : ServerState) (now : Nat) (dto : SocialAuthDto)
        (fid rs : Nat) (rp : String),
        "password" ∉
          ((AuthController.socialAuth env st now dto fid rs rp).1.body.userFields).map
            Prod.fst)
    ∧ (∀ (env : Env) (st : ServerState) (now : Nat) (hdr : Option Jwt),
        "password" ∉
          ((getCurrentUserEndpoint env st now hdr).body.userFields).map Prod.fst) := by
  refine ⟨?_, ?_, ?_, ?_⟩
  · intro env st now dto fid ftv
    unfold AuthController.register
    rcases hr : AuthService.register env st now dto fid ftv with ⟨res, st2⟩
    cases res with
    | error e => simp [Body.userFields]
    | ok payload =>
      rcases payload with ⟨user, tokens⟩
      simpa [Body.userFields] using toResponseObject_no_password user
  · intro env st now dto
    unfold AuthController.login
    rcases hr : AuthService.login env st now dto with ⟨res, st2⟩
    cases res with
    | error e => simp [Body.userFields]
    | ok payload =>
      rcases payload with ⟨user, tokens⟩
      rcases login_ok_user_shape env st now dto user tokens st2 hr with ⟨w, hw⟩
      simpa [Body.userFields, hw] using toResponseObject_no_password w
  · intro env st now dto fid rs rp
    unfold AuthController.socialAuth
    rcases hr : AuthService.socialAuth env st now dto fid rs rp with ⟨res, st2⟩
    cases res with
    | error e => simp [Body.userFields]
    | ok payload =>
      rcases payload with ⟨user, tokens, isNew⟩
      rcases socialAuth_ok_user_shape env st now dto fid rs rp user tokens isNew st2 hr
        with ⟨w, hw⟩
      simpa [Body.userFields, hw] using toResponseObject_no_password w
  · intro env st now hdr
    unfold getCurrentUserEndpoint
    cases ha : authenticate env st now hdr with
    | ok user => simpa [Body.userFields] using loadedJsonFields_no_password user
    | fail s m => simp [Body.userFields]

theorem refreshTokens_ok_of_valid (env : Env) (st : ServerState) (now id exp : Nat)
    (u : User) (hlt : now < exp) (hfind : findUserById st id = some u) :
    AuthService.refreshTokens env st now (.refresh id env.jwtRefreshSecret exp)
      = .ok (generateTokens env u now) := by
  unfold AuthService.refreshTokens AuthService.refreshTokensTry jwtVerifyRefresh
  simp [Nat.not_le.mpr hlt, hfind]

/-- C5 counterexample: a malformed token, an expired token and a
well-formed token whose user no longer exists all fail with the very same
error `Invalid refresh token` — and the endpoint sends the identical 401
response — so the three failure causes are not distinguishable as the
claim states. -/
theorem refreshTokens_failure_causes_indistinguishable :
    AuthService.refreshTokens sampleEnv sampleState 5000 (.malformed "garbage")
      = .error "Invalid refresh token"
    ∧ AuthService.refreshTokens sampleEnv sampleState 5000
        (.refresh 4 "refresh-secret" 1000) = .error "Invalid refresh token"
    ∧ AuthService.refreshTokens sampleEnv sampleState 5000
        (.refresh 99 "refresh-secret" 999999999) = .error "Invalid refresh token"
    ∧ AuthController.refreshToken sampleEnv sampleState 5000 (.malformed "garbage")
      = AuthController.refreshToken sampleEnv sampleState 5000
          (.refresh 99 "refresh-secret" 999999999) := by
  refine ⟨rfl, rfl, rfl, rfl⟩

/-- C5 amended: `refresh` verifies the token against the refresh secret,
loads the identity by the embedded id and re-issues a full new pair; but
the whole body is wrapped in a catch, so a malformed token, an expired
token and a missing user all fail with the single error
`Invalid refresh token`, which the endpoint maps to one 401 response —
the three causes are not distinguishable. -/
theorem refreshTokens_success_and_collapsed_failures :
    (∀ (env : Env) (st : ServerState) (now id exp : Nat) (u : User),
        now < exp → findUserById st id = some u →
        AuthService.refreshTokens env st now (.refresh id env.jwtRefreshSecret exp)
          = .ok (generateTokens env u now))
    ∧ (∀ (env : Env) (st : ServerState) (now : Nat) (tok : Jwt) (e : String),
        AuthService.refreshTokensTry env st now tok = .error e →
        AuthService.refreshTokens env st now tok = .error "Invalid refresh token"
        ∧ AuthController.refreshToken env st now tok
          = ⟨401, .message "Invalid refresh token"⟩) := by
  constructor
  · intro env st now id exp u hlt hfind
    exact refreshTokens_ok_of_valid env st now id exp u hlt hfind
  · intro env st now tok e h
    constructor
    · unfold AuthService.refreshTokens
      rw [h]
    · unfold AuthController.refreshToken AuthService.refreshTokens
      rw [h]

theorem refreshTokens_success_and_collapsed_failures_witness :
    (5000 : Nat) < 999999999
    ∧ findUserById sampleState 4 = some dave
    ∧ AuthService.refreshTokens sampleEnv sampleState 5000
        (.refresh 4 sampleEnv.jwtRefreshSecret 999999999)
      = .ok (generateTokens sampleEnv dave 5000)
    ∧ AuthService.refreshTokensTry sampleEnv sampleState 5000 (.malformed "junk")
      = .error "JsonWebTokenError"
    ∧ AuthService.refreshTokens sampleEnv sampleState 5000 (.malformed "junk")
      = .error "Invalid refresh token" :=
  ⟨by decide, rfl,
    refreshTokens_success_and_collapsed_failures.1 sampleEnv sampleState 5000 4
      999999999 dave (by decide) rfl,
    rfl,
    (refreshTokens_success_and_collapsed_failures.2 sampleEnv sampleState 5000
      (.malformed "junk") "JsonWebTokenError" rfl).1⟩

/-- C6: `refreshTokens` checks only token validity and identity
existence, never the account-state flags — a locked or inactive account
with a well-formed unexpired refresh token still gets a fresh pair —
while the `authenticate` gate rejects a valid access token of the same
account with a 403 response. -/
theorem refreshTokens_ignores_locked_and_inactive_flags :
    ∀ (env : Env) (st : ServerState) (now exp : Nat) (u : User),
      findUserById st u.id = some u →
      (u.isLocked = true ∨ u.isActive = false) →
      now < exp →
      AuthService.refreshTokens env st now (.refresh u.id env.jwtRefreshSecret exp)
        = .ok (generateTokens env u now)
      ∧ (∀ aexp : Nat, now < aexp →
          ∃ m, authenticate env st now
              (some (.access u.id u.email u.role env.jwtSecret aexp)) = .fail 403 m) := by
  intro env st now exp u hfind hflag hlt
  constructor
  · exact refreshTokens_ok_of_valid env st now u.id exp u hlt hfind
  · intro aexp haexp
    unfold authenticate jwtVerifyAccess
    by_cases hact : u.isActive
    · rcases hflag with hl | ha
      · refine ⟨"Account is locked", ?_⟩
        simp [Nat.not_le.mpr haexp, hfind, hact, hl]
      · exact absurd hact (by simp [ha])
    · refine ⟨"Account is inactive", ?_⟩
      simp [Nat.not_le.mpr haexp, hfind, hact]

theorem refreshTokens_ignores_locked_and_inactive_flags_witness :
    luke.isLocked = true
    ∧ findUserById sampleState luke.id = some luke
    ∧ AuthService.refreshTokens sampleEnv sampleState 5000
        (.refresh luke.id sampleEnv.jwtRefreshSecret 999999999)
      = .ok (generateTokens sampleEnv luke 5000)
    ∧ ∃ m, authenticate sampleEnv sampleState 5000
        (some (.access luke.id luke.email luke.role sampleEnv.jwtSecret 888888))
        = .fail 403 m := by
  have h := refreshTokens_ignores_locked_and_inactive_flags sampleEnv sampleState 5000
    999999999 luke rfl (Or.inl rfl) (by decide)
  exact ⟨rfl, rfl, h.1, h.2 888888 (by decide)⟩

/-- C3 counterexample: an unverified, active, unlocked account with the
correct email and password, under the verification-required policy, gets
HTTP 401 with the uniform `Invalid credentials` body from POST
/auth/login — not a 403 `EmailNotVerified` response. -/
theorem login_unverified_endpoint_responds_401 :
    alice.isVerified = false
    ∧ alice.comparePassword "Abc12345!" = true
    ∧ sampleEnv.requireEmailVerification = true
    ∧ (AuthController.login sampleEnv sampleState 5000
        { email := "alice@x.com", password := "Abc12345!" }).1
      = ⟨401, .message "Invalid credentials"⟩
    ∧ (AuthController.login sampleEnv sampleState 5000
        { email := "alice@x.com", password := "Abc12345!" }).1.status ≠ 403 := by
  refine ⟨rfl, rfl, rfl, rfl, by decide⟩

/-- C3 amended: with verification required and an unverified, active,
unlocked account holding the correct password, the login service throws
the email-not-verified error, but the controller catch collapses every
login failure, so the endpoint responds 401 with the uniform
`Invalid credentials` body rather than 403. -/
theorem login_unverified_service_error_endpoint_401 :
    ∀ (env : Env) (st : ServerState) (now : Nat) (dto : LoginUserDto) (u : User),
      findUserByEmail st dto.email = some u →
      u.isLocked = false → u.isActive = true → u.isVerified = false →
      env.requireEmailVerification = true →
      u.comparePassword dto.password = true →
      AuthService.login env st now dto
        = (.error "Please verify your email before logging in", st)
      ∧ (AuthController.login env st now dto).1
        = ⟨401, .message "Invalid credentials"⟩ := by
  intro env st now dto u hfind hl ha hv hreq hpw
  have hserv : AuthService.login env st now dto
      = (.error "Please verify your email before logging in", st) := by
    unfold AuthService.login
    simp [hfind, hl, ha, hv, hreq]
  refine ⟨hserv, ?_⟩
  unfold AuthController.login
  rw [hserv]

theorem login_unverified_service_error_endpoint_401_witness :
    findUserByEmail sampleState "alice@x.com" = some alice
    ∧ AuthService.login sampleEnv sampleState 5000
        { email := "alice@x.com", password := "Abc12345!" }
      = (.error "Please verify your email before logging in", sampleState)
    ∧ (AuthController.login sampleEnv sampleState 5000
        { email := "alice@x.com", password := "Abc12345!" }).1
      = ⟨401, .message "Invalid credentials"⟩ := by
  have h := login_unverified_service_error_endpoint_401 sampleEnv sampleState 5000
    { email := "alice@x.com", password := "Abc12345!" } alice rfl rfl rfl rfl rfl rfl
  exact ⟨rfl, h.1, h.2⟩

/-- C4 counterexample: resendVerification for the verified account
dave@x.com and for the absent account ghost@x.com yields different
responses — 400 `Email is already verified` versus 400 `User not found` —
neither being a uniform no-op success; forgotPassword's two responses
share status 200 but carry different message bodies. -/
theorem resend_forgot_responses_reveal_existence :
    (AuthController.resendVerification sampleState 5000 "dave@x.com" "fresh-token-1").1
      = ⟨400, .message "Email is already verified"⟩
    ∧ (AuthController.resendVerification sampleState 5000 "ghost@x.com" "fresh-token-1").1
      = ⟨400, .message "User not found"⟩
    ∧ (AuthController.resendVerification sampleState 5000 "dave@x.com" "fresh-token-1").1
      ≠ (AuthController.resendVerification sampleState 5000 "ghost@x.com" "fresh-token-1").1
    ∧ (AuthController.forgotPassword sampleState 5000 "dave@x.com" "fresh-token-2").1
      = ⟨200, .message "Password reset instructions sent to your email"⟩
    ∧ (AuthController.forgotPassword sampleState 5000 "ghost@x.com" "fresh-token-2").1
      = ⟨200, .message "If your email exists, you will receive a password reset link"⟩
    ∧ (AuthController.forgotPassword sampleState 5000 "dave@x.com" "fresh-token-2").1
      ≠ (AuthController.forgotPassword sampleState 5000 "ghost@x.com" "fresh-token-2").1 := by
  refine ⟨rfl, rfl, by decide, rfl, rfl, by decide⟩

/-- C4 amended: the two endpoints are not uniform. resendVerification
responds 200 `Verification email sent` only for an existing unverified
account, 400 `Email is already verified` for a verified one and 400
`User not found` for an absent one — status and message reveal account
existence and verification state; forgotPassword always responds 200 but
with different message text for existing versus non-existing emails. -/
theorem resend_forgot_response_shapes :
    ∀ (st : ServerState) (now : Nat) (email ftv : String),
      (findUserByEmail st email = none →
        (AuthController.resendVerification st now email ftv).1
          = ⟨400, .message "User not found"⟩
        ∧ (AuthController.forgotPassword st now email ftv).1
          = ⟨200, .message "If your email exists, you will receive a password reset link"⟩)
      ∧ (∀ u : User, findUserByEmail st email = some u → u.isVerified = true →
        (AuthController.resendVerification st now email ftv).1
          = ⟨400, .message "Email is already verified"⟩
        ∧ (AuthController.forgotPassword st now email ftv).1
          = ⟨200, .message "Password reset instructions sent to your email"⟩)
      ∧ (∀ u : User, findUserByEmail st email = some u → u.isVerified = false →
        (AuthController.resendVerification st now email ftv).1
          = ⟨200, .message "Verification email sent"⟩) := by
  intro st now email ftv
  refine ⟨?_, ?_, ?_⟩
  · intro hnone
    constructor
    · unfold AuthController.resendVerification AuthService.resendVerificationEmail
      simp [hnone]
    · unfold AuthController.forgotPassword AuthService.forgotPassword
      simp [hnone]
  · intro u hfind hver
    constructor
    · unfold AuthController.resendVerification AuthService.resendVerificationEmail
      simp [hfind, hver]
    · unfold AuthController.forgotPassword AuthService.forgotPassword
      simp [hfind]
  · intro u hfind hver
    unfold AuthController.resendVerification AuthService.resendVerificationEmail
    simp [hfind, hver]

theorem resend_forgot_response_shapes_witness :
    findUserByEmail sampleState "ghost@x.com" = none
    ∧ findUserByEmail sampleState "dave@x.com" = some dave
    ∧ (AuthController.resendVerification sampleState 5000 "ghost@x.com" "ftv").1
      = ⟨400, .message "User not found"⟩
    ∧ (AuthController.resendVerification sampleState 5000 "dave@x.com" "ftv").1
      = ⟨400, .message "Email is already verified"⟩
    ∧ (AuthController.forgotPassword sampleState 5000 "ghost@x.com" "ftv").1
      = ⟨200, .message "If your email exists, you will receive a password reset link"⟩ := by
  have hg := (resend_forgot_response_shapes sampleState 5000 "ghost@x.com" "ftv").1 rfl
  have hd := (resend_forgot_response_shapes sampleState 5000 "dave@x.com" "ftv").2.1
    dave rfl rfl
  exact ⟨rfl, rfl, hg.1, hd.1, hg.2⟩

/-- C9 counterexample: a social login against the already-linked
(google, g-1) account with a new access token and a changed profile
leaves the stored link row byte-for-byte unchanged — the cached token
stays `old-token` and the cached profile stays the old one — although it
does return `isNewUser = false`. -/
theorem socialAuth_existing_link_not_updated :
    (AuthService.socialAuth sampleEnv sampleState 7000
        { provider := "google", token := "new-token", profile := some newProfile }
        99 7 "rnd").2.socialAccounts = [eveLink]
    ∧ eveLink.accessToken = "old-token"
    ∧ eveLink.profile ≠ newProfile
    ∧ socialAuthIsNewUser (AuthService.socialAuth sampleEnv sampleState 7000
        { provider := "google", token := "new-token", profile := some newProfile }
        99 7 "rnd").1 = some false := by
  refine ⟨rfl, rfl, by decide, rfl⟩

/-- C9 amended: when an ExternalIdentityLink already exists for the given
(provider, providerSubjectId), socialAuth uses the linked identity
(updating only its `lastLogin`) and returns `isNewUser = false`, but the
stored link row is left untouched: the supplied access token and profile
are NOT re-persisted on subsequent social logins. -/
theorem socialAuth_existing_link_behaviour :
    ∀ (env : Env) (st : ServerState) (now : Nat) (dto : SocialAuthDto)
      (fid rs : Nat) (rp : String) (profile : SocialProfile)
      (acc : SocialAccount) (u : User),
      dto.profile = some profile →
      st.socialAccounts.find?
          (fun a => a.provider == dto.provider && a.providerId == profile.id)
        = some acc →
      findUserById st acc.userId = some u →
      AuthService.socialAuth env st now dto fid rs rp
        = (.ok (({ u with lastLogin := some now } : User).toResponseObject,
            generateTokens env ({ u with lastLogin := some now } : User) now, false),
           saveUser st { u with lastLogin := some now })
      ∧ (AuthService.socialAuth env st now dto fid rs rp).2.socialAccounts
        = st.socialAccounts := by
  intro env st now dto fid rs rp profile acc u hprof hfind huser
  have hmain : AuthService.socialAuth env st now dto fid rs rp
      = (.ok (({ u with lastLogin := some now } : User).toResponseObject,
          generateTokens env ({ u with lastLogin := some now } : User) now, false),
         saveUser st { u with lastLogin := some now }) := by
    unfold AuthService.socialAuth
    simp [hprof, hfind, huser]
  refine ⟨hmain, ?_⟩
  rw [hmain]
  rfl

theorem socialAuth_existing_link_behaviour_witness :
    ({ provider := "google", token := "new-token",
        profile := some newProfile } : SocialAuthDto).profile = some newProfile
    ∧ AuthService.socialAuth sampleEnv sampleState 7000
        { provider := "google", token := "new-token", profile := some newProfile }
        99 7 "rnd"
      = (.ok (({ eve with lastLogin := some 7000 } : User).toResponseObject,
          generateTokens sampleEnv ({ eve with lastLogin := some 7000 } : User) 7000,
          false),
         saveUser sampleState { eve with lastLogin := some 7000 })
    ∧ (AuthService.socialAuth sampleEnv sampleState 7000
        { provider := "google", token := "new-token", profile := some newProfile }
        99 7 "rnd").2.socialAccounts = sampleState.socialAccounts := by
  have h := socialAuth_existing_link_behaviour sampleEnv sampleState 7000
    { provider := "google", token := "new-token", profile := some newProfile }
    99 7 "rnd" newProfile eveLink eve rfl rfl rfl
  exact ⟨rfl, h.1, h.2⟩

/-- C2 counterexample: on the fresh reset token of `sampleState`, the
first resetPassword call is 200; the second call with the very same token
is 400 but with body `Password reset token has expired` — exactly the
response an expired (never used) token gets — so the already-used failure
is not a distinguishable `AlreadyUsed` error. -/
theorem resetPassword_second_use_error_collapses :
    (AuthController.resetPassword sampleState 2000 resetDto).1.status = 200
    ∧ (AuthController.resetPassword
        (AuthController.resetPassword sampleState 2000 resetDto).2 3000 resetDto).1
      = ⟨400, .message "Password reset token has expired"⟩
    ∧ (AuthController.resetPassword sampleState 4700000 resetDto).1
      = ⟨400, .message "Password reset token has expired"⟩
    ∧ (AuthController.resetPassword
        (AuthController.resetPassword sampleState 2000 resetDto).2 3000 resetDto).1
      = (AuthController.resetPassword sampleState 4700000 resetDto).1 := by
  refine ⟨rfl, rfl, rfl, rfl⟩

theorem find_after_mark_used (l : List PasswordReset) (v : String)
    (pr t : PasswordReset)
    (h : l.find? (fun x => x.token == v) = some pr) (ht : t.token = pr.token) :
    (l.map (fun x => if x.token == t.token then t else x)).find?
      (fun x => x.token == v) = some t := by
  have hpv : pr.token = v := by
    have := List.find?_some h
    simpa using this
  induction l with
  | nil => simp at h
  | cons a l ih =>
    rw [List.find?_cons] at h
    simp only [List.map_cons, List.find?_cons]
    by_cases hav : a.token = v
    · have ha : (a.token == v) = true := by simpa using hav
      rw [ha] at h
      have hpr : a = pr := by simpa using h
      have hat : (a.token == t.token) = true := by simp [ht, hpr]
      have hpt : (t.token == v) = true := by simp [ht, hpv]
      simp [hat, hpt]
    · have ha : (a.token == v) = false := by simpa using hav
      rw [ha] at h
      have hat : (a.token == t.token) = false := by
        have hv : t.token = v := ht.trans hpv
        simp [hv, hav]
      simp only [hat, if_false, Bool.false_eq_true]
      rw [ha]
      exact ih h

/-- C2 amended: consuming a valid reset token succeeds (200); a second
call with the same token fails 400, but the body is
`Password reset token has expired` — the same error an expired token
gets, because `isValid()` folds `isUsed` and expiry into one check.  Only
two failures are distinguishable: `Invalid password reset token` when not
found, and the expired/used message otherwise; there is no separate
`AlreadyUsed` failure. -/
theorem resetPassword_first_succeeds_second_expired_error :
    ∀ (st : ServerState) (now now2 : Nat) (dto : ResetPasswordDto)
      (pr : PasswordReset) (u : User),
      st.passwordResets.find? (fun t => t.token == dto.token) = some pr →
      pr.isValid now = true →
      findUserById st pr.userId = some u →
      dto.password = dto.confirmPassword →
      (AuthController.resetPassword st now dto).1
        = ⟨200, .message "Password reset successful"⟩
      ∧ (AuthController.resetPassword
          (AuthController.resetPassword st now dto).2 now2 dto).1
        = ⟨400, .message "Password reset token has expired"⟩ := by
  intro st now now2 dto pr u hfind hvalid huser hmatch
  have hne : ¬ dto.confirmPassword ≠ dto.password := by
    simp [hmatch]
  have hfirst : AuthController.resetPassword st now dto
      = (⟨200, .message "Password reset successful"⟩,
         savePasswordReset (saveUser st { u with password := bcryptHash dto.password })
           { pr with isUsed := true }) := by
    unfold AuthController.resetPassword AuthService.resetPassword
    simp [hne, hmatch, hfind, hvalid, huser]
  refine ⟨by rw [hfirst], ?_⟩
  rw [hfirst]
  have hfind2 : (savePasswordReset
        (saveUser st { u with password := bcryptHash dto.password })
        { pr with isUsed := true }).passwordResets.find?
      (fun t => t.token == dto.token) = some { pr with isUsed := true } := by
    unfold savePasswordReset saveUser
    exact find_after_mark_used st.passwordResets dto.token pr
      { pr with isUsed := true } hfind rfl
  have hne2 : ¬ dto.password ≠ dto.confirmPassword := by simp [hmatch]
  unfold AuthController.resetPassword AuthService.resetPassword
  rw [if_neg hne, if_neg hne2, hfind2]
  simp [PasswordReset.isValid]

theorem resetPassword_first_succeeds_second_expired_error_witness :
    sampleState.passwordResets.find? (fun t => t.token == resetDto.token)
      = some (PasswordReset.generate "reset-token-value-1" 4 1000)
    ∧ (AuthController.resetPassword sampleState 2000 resetDto).1
      = ⟨200, .message "Password reset successful"⟩
    ∧ (AuthController.resetPassword
        (AuthController.resetPassword sampleState 2000 resetDto).2 3000 resetDto).1
      = ⟨400, .message "Password reset token has expired"⟩ := by
  have h := resetPassword_first_succeeds_second_expired_error sampleState 2000 3000
    resetDto (PasswordReset.generate "reset-token-value-1" 4 1000) dave rfl rfl rfl rfl
  exact ⟨rfl, h.1, h.2⟩

/-- C1 counterexample: five concurrent requests failing with 401 while a
refresh token is stored issue five calls to the refresh endpoint, not
one — the client has no shared in-flight refresh to coalesce onto. -/
theorem five_concurrent_401s_issue_five_refresh_calls :
    refreshCallCount true (List.replicate 5 (.response401 { retry := false })) = 5
    ∧ refreshCallCount true (List.replicate 5 (.response401 { retry := false })) ≠ 1 := by
  refine ⟨rfl, by decide⟩

/-- C1 amended: refresh attempts are not serialized.  Every concurrent
trigger of the refresh path issues its own call to the refresh endpoint:
n not-yet-retried requests failing with 401 while a refresh token is
stored issue n refresh calls (one more when the proactive timer also
fires), and each such request is individually marked retried and
replayed after its own refresh call — never coalesced onto a single
in-flight refresh. -/
theorem each_refresh_trigger_issues_own_call :
    ∀ rs : List ClientRequest,
      (∀ r ∈ rs, r.retry = false) →
      refreshCallCount true (rs.map RefreshTrigger.response401) = rs.length
      ∧ refreshCallCount true
          (rs.map RefreshTrigger.response401 ++ [RefreshTrigger.proactiveTimer])
        = rs.length + 1
      ∧ ∀ r ∈ rs, interceptOn401 true r = .refreshAndRetry := by
  intro rs hfresh
  have hcount : ∀ (l : List ClientRequest), (∀ r ∈ l, r.retry = false) →
      (l.map RefreshTrigger.response401).filter (triggerCallsRefresh true)
        = l.map RefreshTrigger.response401 := by
    intro l
    induction l with
    | nil => intro _; rfl
    | cons a l ih =>
      intro hl
      have ha : a.retry = false := hl a (List.mem_cons_self a l)
      have hcall : triggerCallsRefresh true (RefreshTrigger.response401 a) = true := by
        simp [triggerCallsRefresh, interceptOn401, ha]
      simp only [List.map_cons, List.filter_cons, hcall, if_true]
      rw [ih (fun r hr => hl r (List.mem_cons_of_mem a hr))]
  have h1 : refreshCallCount true (rs.map RefreshTrigger.response401) = rs.length := by
    unfold refreshCallCount
    rw [hcount rs hfresh, List.length_map]
  refine ⟨h1, ?_, ?_⟩
  · unfold refreshCallCount
    rw [List.filter_append, hcount rs hfresh]
    simp [triggerCallsRefresh]
  · intro r hr
    simp [interceptOn401, hfresh r hr]

theorem each_refresh_trigger_issues_own_call_witness :
    (∀ r ∈ List.replicate 5 ({ retry := false } : ClientRequest), r.retry = false)
    ∧ refreshCallCount true
        ((List.replicate 5 ({ retry := false } : ClientRequest)).map
          RefreshTrigger.response401) = 5
    ∧ interceptOn401 true { retry := false } = .refreshAndRetry := by
  have hfresh : ∀ r ∈ List.replicate 5 ({ retry := false } : ClientRequest),
      r.retry = false := by
    intro r hr
    rw [List.eq_of_mem_replicate hr]
  have h := each_refresh_trigger_issues_own_call
    (List.replicate 5 ({ retry := false } : ClientRequest)) hfresh
  exact ⟨hfresh, h.1, h.2.2 { retry := false } (by decide)⟩

end LearningPlatform
